import Mathlib

/-!
Verification of the debounced power-status monitor (`src/power_monitor.py`,
`src/telegram_bot.py`) against its natural-language specification.

Shallow embedding notes:
* Python `int` is modelled by `Int` (unbounded, floor division `Int.fdiv` /
  floor modulo `Int.fmod`, exactly Python's `//` and `%`).
* The persisted JSON record is modelled by `PState`; an absent
  `status_changed_at` / `draft_off_time` key is `none` (the `dict.get`
  default path).  Python truthiness of the draft field (`0` is falsy) is
  `truthy`.
* One invocation of `PowerMonitor.monitor_power_status` is modelled as the
  pure function `monitor_power_status`, returning the ordered list of its
  side effects (`Event.send` for each `telegram_bot.send_message` call,
  tagged by call site, and `Event.save` for each `save_status` call).
  `print` logging is not an observable effect and is omitted.
* The probe `check_power_status` is modelled over an abstract HTTP response:
  a transport error, or a status code together with the result of
  `response.json()` (`Except.error` when the body is not JSON).  Python
  attribute/index errors during extraction are modelled by `Except` and,
  like every exception in the source `try` block, collapse to `none`.
* The Ukrainian string literals of the source file are stored double-encoded
  (UTF-8 read back as mac-roman) in this snapshot; they are used here in
  their decoded form, which is the form the repository's own tests assert
  (e.g. `'45 хв'`, `'1 день'`, `'3 дні'` in `tests/test_power_monitor.py`).
-/

/-- A JSON value, as produced by `response.json()` / `json.load`. Object keys
are assumed distinct (Python's `dict` keeps one entry per key). -/
inductive Json where
  | null : Json
  | bool (b : Bool) : Json
  | num (n : Int) : Json
  | str (s : String) : Json
  | arr (elems : List Json) : Json
  | obj (fields : List (String × Json)) : Json
  deriving Repr

/-- Python `d.get(key)` (no default): `AttributeError` when the receiver is
not a dict, otherwise `none` for a missing key. -/
def dictGet : Json → String → Except Unit (Option Json)
  | Json.obj fields, key => Except.ok ((fields.find? (fun p => p.1 == key)).map Prod.snd)
  | _, _ => Except.error ()

/-- Python `d.get(key, default)`. -/
def dictGetD (j : Json) (key : String) (default : Json) : Except Unit Json :=
  (dictGet j key).map (fun o => o.getD default)

/-- Python `x[0]`: first element of a list (`IndexError` when empty), first
character of a string, `TypeError`/`KeyError` otherwise (string-keyed dicts
have no key `0`). -/
def subscriptZero : Json → Except Unit Json
  | Json.arr (x :: _) => Except.ok x
  | Json.arr [] => Except.error ()
  | Json.str s =>
      match s.data with
      | c :: _ => Except.ok (Json.str (String.mk [c]))
      | [] => Except.error ()
  | _ => Except.error ()

/-- Result of one probe observation, `check_power_status`'s success payload:
`{'online': …, 'timestamp': …, 'raw_data': …}`. -/
structure Observation where
  online : Bool
  timestamp : Int
  raw_data : Json
  deriving Repr

/-- The HTTP response the probe received: status code plus the result of
`response.json()` (`Except.error` when the body does not parse as JSON). -/
structure ProbeResponse where
  status_code : Int
  body : Except Unit Json
  deriving Repr

/-- `device = data.get('data', {}).get('thingList', [{}])[0]` -/
def extractDevice (data : Json) : Except Unit Json := do
  let d ← dictGetD data "data" (Json.obj [])
  let tl ← dictGetD d "thingList" (Json.arr [Json.obj []])
  subscriptZero tl

/-- `is_online = device.get('itemData', {}).get('online') is True` -/
def onlineFlag (device : Json) : Except Unit Bool := do
  let item ← dictGetD device "itemData" (Json.obj [])
  let onl ← dictGet item "online"
  pure (match onl with | some (Json.bool true) => true | _ => false)

/-- `PowerMonitor.check_power_status`.  The input is either a transport error
(`httpx` raised) or the received response; `now_ts` is
`int(datetime.now().timestamp())`.  The source wraps the whole body in
`try/except Exception: return None`, so every error path yields `none`.
The response's `status_code` is never read by the source. -/
def check_power_status (resp : Except Unit ProbeResponse) (now_ts : Int) :
    Option Observation :=
  match resp with
  | Except.error _ => none
  | Except.ok r =>
    match r.body with
    | Except.error _ => none
    | Except.ok data =>
      match extractDevice data with
      | Except.error _ => none
      | Except.ok device =>
        match onlineFlag device with
        | Except.error _ => none
        | Except.ok is_online => some ⟨is_online, now_ts, device⟩

/-- `PowerMonitor.POWER_OFF_CONFIRMATION_DELAY = 10 * 60`. -/
def POWER_OFF_CONFIRMATION_DELAY : Int := 10 * 60

/-- `PowerMonitor.format_duration`. -/
def format_duration (seconds : Int) : String :=
  let total_minutes := Int.fdiv seconds 60
  let total_hours := Int.fdiv total_minutes 60
  let days := Int.fdiv total_hours 24
  let hours := Int.fmod total_hours 24
  let minutes := Int.fmod total_minutes 60
  let parts : List String :=
    (if days > 0 then
      [toString days ++ " " ++
        (if days = 1 then "день"
         else if 2 ≤ days ∧ days ≤ 4 then "дні"
         else "днів")]
     else []) ++
    (if hours > 0 then [toString hours ++ " год."] else []) ++
    (if minutes > 0 ∨ (days = 0 ∧ hours = 0) then [toString minutes ++ " хв"] else [])
  String.intercalate " " parts

/-- The persisted `.power_status` record written by `save_status` and read by
`load_last_status`.  `none` models an absent key. -/
structure PState where
  online : Bool
  timestamp : Int
  status_changed_at : Option Int
  draft_off_time : Option Int
  raw_data : Json
  deriving Repr

/-- Python truthiness of an optional integer field (`0` and `None` are falsy). -/
def truthy : Option Int → Bool
  | none => false
  | some t => t != 0

/-- Python truthiness of an optional string (empty string and `None` are falsy). -/
def optStrTruthy : Option String → Bool
  | none => false
  | some s => !s.isEmpty

/-- Which call site of `telegram_bot.send_message` produced an intent:
the loop over `power_chat_ids` (primary outage/restored messages) or one of
the three debug messages sent to `debug_chat_id`. -/
inductive SendKind where
  | primary : SendKind
  | draftBegin : SendKind
  | draftCancel : SendKind
  | draftConfirm : SendKind
  deriving Repr, DecidableEq

/-- The arguments of one `telegram_bot.send_message(...)` call. -/
structure SendCall where
  text : String
  chat_id : String
  silent_mode : Bool
  force_send : Bool
  deriving Repr, DecidableEq

/-- One observable side effect of a monitoring cycle, in program order. -/
inductive Event where
  | send (kind : SendKind) (call : SendCall) : Event
  | save (st : PState) : Event
  deriving Repr

/-- The `PowerMonitor` configuration read from the environment in
`__init__` (`power_chat_ids` is filtered to non-empty entries there). -/
structure MonitorCfg where
  power_chat_ids : List String
  debug_chat_id : Option String
  log_monitor : Bool
  log_track : Bool
  deriving Repr, DecidableEq

/-- `f"💡 {time_str} Юху! Світло повернулося!\n⏱️ Було відсутнє {duration_str}"` -/
def restoredMessage (time_str duration_str : String) : String :=
  "💡 " ++ time_str ++ " Юху! Світло повернулося!\n⏱️ Було відсутнє " ++ duration_str

/-- The `DRAFT СКАСОВАНО` debug message. -/
def draftCancelMessage (draft_duration_str : String) : String :=
  "ℹ️ <b>DRAFT СКАСОВАНО</b>\n\n💡 Світло повернулось за " ++ draft_duration_str ++
    " від початку draft"

/-- The `DRAFT: Потенційне вимкнення світла` debug message. -/
def draftBeginMessage (time_str : String) : String :=
  "⚠️ <b>DRAFT: Потенційне вимкнення світла</b>\n\n🕐 Час виявлення: " ++ time_str ++
    "\n⏳ Очікуємо підтвердження (10 хвилин)..."

/-- `f"🔦 {time_str} Йой… Халепа, знову без світла 😒\n⏱️ Було наявне {duration_str}"` -/
def outageMessage (time_str duration_str : String) : String :=
  "🔦 " ++ time_str ++ " Йой… Халепа, знову без світла 😒\n⏱️ Було наявне " ++ duration_str

/-- The `DRAFT ПІДТВЕРДЖЕНО` debug message. -/
def draftConfirmMessage : String :=
  "✅ <b>DRAFT ПІДТВЕРДЖЕНО</b>\n\n🔦 Вимкнення світла підтверджено після 10 хвилин"

/-- `PowerMonitor.monitor_power_status`, as the ordered list of its side
effects.  `current_status` is the probe result (`none` aborts the cycle),
`last_status` the loaded persisted record (`none` models a missing or
unreadable file), `time_str` is `now.strftime("%H:%M")`. -/
def monitor_power_status (cfg : MonitorCfg) (time_str : String)
    (current_status : Option Observation) (last_status : Option PState) :
    List Event :=
  match current_status with
  | none => []
  | some cur =>
    match last_status with
    | none =>
        [Event.save ⟨cur.online, cur.timestamp, some cur.timestamp, none, cur.raw_data⟩]
    | some last =>
      if last.online && cur.online then
        [Event.save ⟨cur.online, cur.timestamp, last.status_changed_at, none, cur.raw_data⟩]
      else if !last.online && !cur.online then
        [Event.save ⟨cur.online, cur.timestamp, last.status_changed_at, none, cur.raw_data⟩]
      else if !last.online && cur.online then
        let duration := cur.timestamp - (last.status_changed_at.getD cur.timestamp)
        let message := restoredMessage time_str (format_duration duration)
        (cfg.power_chat_ids.map fun chat_id =>
            Event.send SendKind.primary ⟨message, chat_id, false, true⟩)
        ++ (if truthy last.draft_off_time && cfg.log_track && optStrTruthy cfg.debug_chat_id then
              -- guarded by truthiness, so `last.draft_off_time` is a present integer here
              let draft_duration := cur.timestamp - (last.draft_off_time.getD 0)
              [Event.send SendKind.draftCancel
                ⟨draftCancelMessage (format_duration draft_duration),
                 cfg.debug_chat_id.getD "", true, true⟩]
            else [])
        ++ [Event.save ⟨cur.online, cur.timestamp, some cur.timestamp, none, cur.raw_data⟩]
      else if last.online && !cur.online then
        if !truthy last.draft_off_time then
          -- begin draft: the save happens BEFORE the debug send in the source
          [Event.save ⟨true, cur.timestamp, last.status_changed_at, some cur.timestamp,
                       cur.raw_data⟩]
          ++ (if cfg.log_track && optStrTruthy cfg.debug_chat_id then
                [Event.send SendKind.draftBegin
                  ⟨draftBeginMessage time_str, cfg.debug_chat_id.getD "", true, true⟩]
              else [])
        else
          let time_since_draft := cur.timestamp - (last.draft_off_time.getD cur.timestamp)
          if time_since_draft ≥ POWER_OFF_CONFIRMATION_DELAY then
            let duration := cur.timestamp - (last.status_changed_at.getD cur.timestamp)
            let message := outageMessage time_str (format_duration duration)
            (cfg.power_chat_ids.map fun chat_id =>
                Event.send SendKind.primary ⟨message, chat_id, false, true⟩)
            ++ (if cfg.log_track && optStrTruthy cfg.debug_chat_id then
                  [Event.send SendKind.draftConfirm
                    ⟨draftConfirmMessage, cfg.debug_chat_id.getD "", true, true⟩]
                else [])
            ++ [Event.save ⟨false, cur.timestamp, some cur.timestamp, none, cur.raw_data⟩]
          else
            -- still waiting: the source only logs, no save and no send
            []
      else []

/-- The states written by a cycle, in order (arguments of `save_status`). -/
def saves (evs : List Event) : List PState :=
  evs.filterMap fun e => match e with | Event.save st => some st | _ => none

/-- The primary (outage/restored) notification calls of a cycle, in order. -/
def primarySends (evs : List Event) : List SendCall :=
  evs.filterMap fun e =>
    match e with | Event.send SendKind.primary c => some c | _ => none

/-- Is this event a `send_message` call? -/
def isSend : Event → Bool
  | Event.send _ _ => true
  | Event.save _ => false

/-- `true` iff no `send_message` call occurs after any `save_status` call. -/
def noSendAfterSave : List Event → Bool
  | [] => true
  | Event.save _ :: rest => rest.all fun e => !isSend e
  | Event.send _ _ :: rest => noSendAfterSave rest

/-- `TelegramBot.send_message`.  `default_chat_id` is `TELEGRAM_CHAT_ID`,
`restricted_time` abstracts `_is_restricted_time()` (the wall clock),
`transport_ok` abstracts whether `bot.send_message` raises `TelegramError`
(caught, logged, and turned into `False`).  `Except.error` models the two
`raise ValueError` paths. -/
def send_message (default_chat_id : Option String)
    (restricted_time transport_ok : Bool)
    (text : String) (chat_id : Option String)
    (silent_mode force_send : Bool) : Except String Bool :=
  if !optStrTruthy chat_id && !optStrTruthy default_chat_id then
    Except.error
      "chat_id must be provided or TELEGRAM_CHAT_ID environment variable must be set"
  else if restricted_time && !force_send then
    Except.error "Cannot send message between 23:30 and 00:30 without force_send=True"
  else if transport_ok then
    Except.ok true
  else
    Except.ok false

/-! ### Helper lemmas -/

theorem fdiv_chain (s : Int) (hs : 0 ≤ s) :
    Int.fdiv (Int.fdiv (Int.fdiv s 60) 60) 24 = Int.fdiv s 86400 := by
  obtain ⟨n, rfl⟩ := Int.eq_ofNat_of_zero_le hs
  simp only [show ((60 : Int)) = (((60 : Nat) : Int)) from rfl,
             show ((24 : Int)) = (((24 : Nat) : Int)) from rfl,
             show ((86400 : Int)) = (((86400 : Nat) : Int)) from rfl,
             ← Int.ofNat_fdiv]
  norm_num [Nat.div_div_eq_div_mul]

theorem fmod_chain (s : Int) (hs : 0 ≤ s) :
    Int.fmod (Int.fdiv (Int.fdiv s 60) 60) 24 = Int.fmod (Int.fdiv s 3600) 24 := by
  obtain ⟨n, rfl⟩ := Int.eq_ofNat_of_zero_le hs
  simp only [show ((60 : Int)) = (((60 : Nat) : Int)) from rfl,
             show ((24 : Int)) = (((24 : Nat) : Int)) from rfl,
             show ((3600 : Int)) = (((3600 : Nat) : Int)) from rfl,
             ← Int.ofNat_fdiv, ← Int.ofNat_fmod]
  norm_num [Nat.div_div_eq_div_mul]

/-! ### C9: duration formatting -/

/-- The day-unit word rule exactly as the claim words it:
1 day → singular, 2–4 days → first plural form, 0 or 5+ days → second
plural form. -/
def specDayWord (days : Int) : String :=
  if days = 1 then "день"
  else if 2 ≤ days ∧ days ≤ 4 then "дні"
  else "днів"

/-- The duration decomposition exactly as the claim words it: days/hours/
minutes by integer division with no rounding, zero-valued higher units
omitted, the minutes part always present when days and hours are both zero
(including minutes = 0). -/
def specDurationParts (seconds : Int) : List String :=
  let days := Int.fdiv seconds 86400
  let hours := Int.fmod (Int.fdiv seconds 3600) 24
  let minutes := Int.fmod (Int.fdiv seconds 60) 60
  (if days > 0 then [toString days ++ " " ++ specDayWord days] else []) ++
  (if hours > 0 then [toString hours ++ " год."] else []) ++
  (if minutes > 0 ∨ (days = 0 ∧ hours = 0) then [toString minutes ++ " хв"] else [])

/-- C9: for every non-negative duration, `format_duration` produces
exactly the space-joined parts the claim describes: days/hours/minutes by
integer division, zero-valued higher units omitted, the minutes part always
present when days and hours are both zero (even at minutes = 0), and the
day word chosen by 1 → "день", 2–4 → "дні", 0 or 5+ → "днів". -/
theorem C9_format_duration_matches_spec (seconds : Int) (hs : 0 ≤ seconds) :
    format_duration seconds = String.intercalate " " (specDurationParts seconds) := by
  simp only [format_duration, specDurationParts, specDayWord]
  rw [fdiv_chain seconds hs, fmod_chain seconds hs]

/-- Witness for C9 at the concrete duration 259261 s (3 days, 0 h, 1 min),
the repository's own multi-day test case. -/
theorem C9_witness :
    format_duration 259261 = String.intercalate " " (specDurationParts 259261) :=
  C9_format_duration_matches_spec 259261 (by decide)

/-! ### C2: probe error classification -/

/-- C2 counterexample: the claim "any non-2xx HTTP response is classified as
a ProbeFailure" is false — `check_power_status` never reads
`response.status_code`, so a 401 response whose body is valid JSON is
treated as a successful probe and yields an observation (online = false). -/
theorem C2_counterexample :
    ¬ (∀ (r : ProbeResponse) (now_ts : Int),
         (r.status_code < 200 ∨ 300 ≤ r.status_code) →
         check_power_status (Except.ok r) now_ts = none) := fun h =>
  Option.noConfusion
    (h ⟨401, Except.ok (Json.obj [("error", Json.num 401),
                                  ("msg", Json.str "Unauthorized")])⟩
       1000 (Or.inr (by norm_num)))

/-- C2 (amended): a transport error, a body that fails to parse as JSON, and
a parsed body whose extraction raises (e.g. an empty `thingList`) each yield
`none` (a ProbeFailure) — the probe returns rather than raising — while a
parseable JSON body yields an observation for EVERY status code, 2xx or not:
the status code is never examined. -/
theorem C2_probe_failure_amended :
    (∀ now_ts : Int, check_power_status (Except.error ()) now_ts = none) ∧
    (∀ status now_ts : Int,
      check_power_status (Except.ok ⟨status, Except.error ()⟩) now_ts = none) ∧
    (∀ status now_ts : Int,
      check_power_status
        (Except.ok ⟨status,
          Except.ok (Json.obj [("data", Json.obj [("thingList", Json.arr [])])])⟩)
        now_ts = none) ∧
    (∀ status now_ts : Int,
      check_power_status
        (Except.ok ⟨status,
          Except.ok (Json.obj [("data", Json.obj [("thingList",
            Json.arr [Json.obj [("itemData", Json.obj [("online", Json.bool true)])]])])])⟩)
        now_ts =
      some ⟨true, now_ts, Json.obj [("itemData", Json.obj [("online", Json.bool true)])]⟩) :=
  ⟨fun _ => rfl, fun _ _ => rfl, fun _ _ => rfl, fun _ _ => rfl⟩

/-! ### List-selector helper lemmas -/

theorem saves_append (a b : List Event) : saves (a ++ b) = saves a ++ saves b :=
  List.filterMap_append a b _

theorem primarySends_append (a b : List Event) :
    primarySends (a ++ b) = primarySends a ++ primarySends b :=
  List.filterMap_append a b _

theorem saves_mapSend (l : List String) (k : SendKind) (mk : String → SendCall) :
    saves (l.map fun c => Event.send k (mk c)) = [] := by
  induction l with
  | nil => rfl
  | cons x xs ih => simp [saves, List.filterMap_cons, ih]

theorem primarySends_mapPrimary (l : List String) (mk : String → SendCall) :
    primarySends (l.map fun c => Event.send SendKind.primary (mk c)) = l.map mk := by
  induction l with
  | nil => rfl
  | cons x xs ih =>
      simp only [primarySends, List.map_cons, List.filterMap_cons] at ih ⊢
      simp [ih]

theorem saves_iteSingleSend (c : Prop) [Decidable c] (k : SendKind) (sc : SendCall) :
    saves (if c then [Event.send k sc] else []) = [] := by
  split <;> rfl

theorem primarySends_iteDebug (c : Prop) [Decidable c] (k : SendKind) (sc : SendCall)
    (hk : k ≠ SendKind.primary) :
    primarySends (if c then [Event.send k sc] else []) = [] := by
  split
  · cases k
    · exact absurd rfl hk
    · rfl
    · rfl
    · rfl
  · rfl

/-! ### Branch characterizations of `monitor_power_status` -/

theorem monitor_bothOnline (cfg : MonitorCfg) (time_str : String)
    (last : PState) (cur : Observation)
    (hon : last.online = true) (hcur : cur.online = true) :
    monitor_power_status cfg time_str (some cur) (some last) =
      [Event.save ⟨cur.online, cur.timestamp, last.status_changed_at, none, cur.raw_data⟩] := by
  simp [monitor_power_status, hon, hcur]

theorem monitor_bothOffline (cfg : MonitorCfg) (time_str : String)
    (last : PState) (cur : Observation)
    (hon : last.online = false) (hcur : cur.online = false) :
    monitor_power_status cfg time_str (some cur) (some last) =
      [Event.save ⟨cur.online, cur.timestamp, last.status_changed_at, none, cur.raw_data⟩] := by
  simp [monitor_power_status, hon, hcur]

theorem monitor_restored (cfg : MonitorCfg) (time_str : String)
    (last : PState) (cur : Observation)
    (hon : last.online = false) (hcur : cur.online = true) :
    monitor_power_status cfg time_str (some cur) (some last) =
      (cfg.power_chat_ids.map fun chat_id =>
          Event.send SendKind.primary
            ⟨restoredMessage time_str
               (format_duration
                 (cur.timestamp - (last.status_changed_at.getD cur.timestamp))),
             chat_id, false, true⟩)
      ++ (if truthy last.draft_off_time && cfg.log_track
             && optStrTruthy cfg.debug_chat_id then
            [Event.send SendKind.draftCancel
              ⟨draftCancelMessage
                 (format_duration (cur.timestamp - (last.draft_off_time.getD 0))),
               cfg.debug_chat_id.getD "", true, true⟩]
          else [])
      ++ [Event.save ⟨cur.online, cur.timestamp, some cur.timestamp, none, cur.raw_data⟩] := by
  simp [monitor_power_status, hon, hcur]

theorem monitor_draftBegin (cfg : MonitorCfg) (time_str : String)
    (last : PState) (cur : Observation)
    (hon : last.online = true) (hcur : cur.online = false)
    (hd : truthy last.draft_off_time = false) :
    monitor_power_status cfg time_str (some cur) (some last) =
      [Event.save ⟨true, cur.timestamp, last.status_changed_at, some cur.timestamp,
                   cur.raw_data⟩]
      ++ (if cfg.log_track && optStrTruthy cfg.debug_chat_id then
            [Event.send SendKind.draftBegin
              ⟨draftBeginMessage time_str, cfg.debug_chat_id.getD "", true, true⟩]
          else []) := by
  simp [monitor_power_status, hon, hcur, hd]

theorem monitor_stillWaiting (cfg : MonitorCfg) (time_str : String)
    (last : PState) (cur : Observation) (t0 : Int)
    (hon : last.online = true) (hcur : cur.online = false)
    (hdraft : last.draft_off_time = some t0) (ht0 : t0 ≠ 0)
    (hlt : cur.timestamp - t0 < POWER_OFF_CONFIRMATION_DELAY) :
    monitor_power_status cfg time_str (some cur) (some last) = [] := by
  simp [monitor_power_status, hon, hcur, hdraft, truthy, ht0, not_le.mpr hlt]

theorem monitor_confirm (cfg : MonitorCfg) (time_str : String)
    (last : PState) (cur : Observation) (t0 : Int)
    (hon : last.online = true) (hcur : cur.online = false)
    (hdraft : last.draft_off_time = some t0) (ht0 : t0 ≠ 0)
    (hD : POWER_OFF_CONFIRMATION_DELAY ≤ cur.timestamp - t0) :
    monitor_power_status cfg time_str (some cur) (some last) =
      (cfg.power_chat_ids.map fun chat_id =>
          Event.send SendKind.primary
            ⟨outageMessage time_str
               (format_duration
                 (cur.timestamp - (last.status_changed_at.getD cur.timestamp))),
             chat_id, false, true⟩)
      ++ (if cfg.log_track && optStrTruthy cfg.debug_chat_id then
            [Event.send SendKind.draftConfirm
              ⟨draftConfirmMessage, cfg.debug_chat_id.getD "", true, true⟩]
          else [])
      ++ [Event.save ⟨false, cur.timestamp, some cur.timestamp, none, cur.raw_data⟩] := by
  simp [monitor_power_status, hon, hcur, hdraft, truthy, ht0, hD]

/-! ### C1, C4, C5, C6: the state-machine transitions -/

/-- C1: from DraftOffline (persisted online = true with the draft field set),
every offline observation with observedAt - draftSince ≥ D (boundary
inclusive) confirms the outage: one primary outage notification per
configured recipient carrying duration observedAt - changedAt, and the next
persisted state is ConfirmedOffline — online = false,
changedAt = observedAt, no draft field.  (`t0 ≠ 0` renders Python's
truthiness test on the draft field; every draft the engine writes is an
observation timestamp.) -/
theorem C1_outage_confirmed (cfg : MonitorCfg) (time_str : String)
    (last : PState) (cur : Observation) (t0 ca : Int)
    (hon : last.online = true)
    (hdraft : last.draft_off_time = some t0) (ht0 : t0 ≠ 0)
    (hca : last.status_changed_at = some ca)
    (hoff : cur.online = false)
    (hD : POWER_OFF_CONFIRMATION_DELAY ≤ cur.timestamp - t0) :
    primarySends (monitor_power_status cfg time_str (some cur) (some last)) =
      cfg.power_chat_ids.map (fun chat_id =>
        ⟨outageMessage time_str (format_duration (cur.timestamp - ca)),
         chat_id, false, true⟩) ∧
    saves (monitor_power_status cfg time_str (some cur) (some last)) =
      [⟨false, cur.timestamp, some cur.timestamp, none, cur.raw_data⟩] := by
  rw [monitor_confirm cfg time_str last cur t0 hon hoff hdraft ht0 hD]
  constructor
  · rw [primarySends_append, primarySends_append, primarySends_mapPrimary,
        primarySends_iteDebug _ _ _ (by decide)]
    simp [primarySends, hca]
  · rw [saves_append, saves_append, saves_mapSend, saves_iteSingleSend]
    simp [saves]

/-- Witness for C1 at the spec's scenario 4: draft since 1100, changedAt
1000, offline observed at exactly 1700 (elapsed = D = 600, inclusive
boundary) → outage message with duration 700 s, next state
`{online: false, changedAt: 1700}`. -/
theorem C1_witness :
    primarySends (monitor_power_status ⟨["123456789"], some "987654321", true, true⟩
        "12:10" (some ⟨false, 1700, Json.null⟩)
        (some ⟨true, 1400, some 1000, some 1100, Json.null⟩)) =
      [⟨outageMessage "12:10" (format_duration 700), "123456789", false, true⟩] ∧
    saves (monitor_power_status ⟨["123456789"], some "987654321", true, true⟩
        "12:10" (some ⟨false, 1700, Json.null⟩)
        (some ⟨true, 1400, some 1000, some 1100, Json.null⟩)) =
      [⟨false, 1700, some 1700, none, Json.null⟩] :=
  C1_outage_confirmed ⟨["123456789"], some "987654321", true, true⟩ "12:10"
    ⟨true, 1400, some 1000, some 1100, Json.null⟩ ⟨false, 1700, Json.null⟩
    1100 1000 rfl rfl (by decide) rfl rfl (by decide)

/-- C4: from ConfirmedOffline (persisted online = false), every online
observation emits exactly one restored notification per configured primary
recipient, with duration observedAt - changedAt, with no condition on how
short the confirmed-offline streak was, and the next persisted state is
Online with changedAt = observedAt. -/
theorem C4_restored (cfg : MonitorCfg) (time_str : String)
    (last : PState) (cur : Observation) (ca : Int)
    (hon : last.online = false) (hca : last.status_changed_at = some ca)
    (hcur : cur.online = true) :
    primarySends (monitor_power_status cfg time_str (some cur) (some last)) =
      cfg.power_chat_ids.map (fun chat_id =>
        ⟨restoredMessage time_str (format_duration (cur.timestamp - ca)),
         chat_id, false, true⟩) ∧
    saves (monitor_power_status cfg time_str (some cur) (some last)) =
      [⟨true, cur.timestamp, some cur.timestamp, none, cur.raw_data⟩] := by
  rw [monitor_restored cfg time_str last cur hon hcur]
  constructor
  · rw [primarySends_append, primarySends_append, primarySends_mapPrimary,
        primarySends_iteDebug _ _ _ (by decide)]
    simp [primarySends, hca]
  · rw [saves_append, saves_append, saves_mapSend, saves_iteSingleSend]
    simp [saves, hcur]

/-- Witness for C4 at the spec's scenario 5: confirmed offline since 1700,
online observed at 2000 (a 300 s streak) → restored message with duration
300 s, next state `{online: true, changedAt: 2000}`. -/
theorem C4_witness :
    primarySends (monitor_power_status ⟨["123456789"], some "987654321", true, true⟩
        "12:15" (some ⟨true, 2000, Json.null⟩)
        (some ⟨false, 1700, some 1700, none, Json.null⟩)) =
      [⟨restoredMessage "12:15" (format_duration 300), "123456789", false, true⟩] ∧
    saves (monitor_power_status ⟨["123456789"], some "987654321", true, true⟩
        "12:15" (some ⟨true, 2000, Json.null⟩)
        (some ⟨false, 1700, some 1700, none, Json.null⟩)) =
      [⟨true, 2000, some 2000, none, Json.null⟩] :=
  C4_restored ⟨["123456789"], some "987654321", true, true⟩ "12:15"
    ⟨false, 1700, some 1700, none, Json.null⟩ ⟨true, 2000, Json.null⟩
    1700 rfl rfl rfl

/-- C5: from Online (no truthy draft), an offline observation begins a draft
— the single write is DraftOffline with draftSince = observedAt, changedAt
unchanged, online still true — and emits no primary notification; and once
the draft is active since t0, every offline observation with
observedAt < t0 + D produces no effect at all: no write (the persisted
state stays as it is) and no notification. -/
theorem C5_debounce (cfg : MonitorCfg) (time_str : String)
    (last : PState) (cur : Observation)
    (hon : last.online = true) (hoff : cur.online = false) :
    (truthy last.draft_off_time = false →
      saves (monitor_power_status cfg time_str (some cur) (some last)) =
        [⟨true, cur.timestamp, last.status_changed_at, some cur.timestamp,
          cur.raw_data⟩] ∧
      primarySends (monitor_power_status cfg time_str (some cur) (some last)) = []) ∧
    (∀ t0 : Int, last.draft_off_time = some t0 → t0 ≠ 0 →
      cur.timestamp < t0 + POWER_OFF_CONFIRMATION_DELAY →
      monitor_power_status cfg time_str (some cur) (some last) = []) := by
  constructor
  · intro hd
    rw [monitor_draftBegin cfg time_str last cur hon hoff hd]
    constructor
    · rw [saves_append, saves_iteSingleSend]
      simp [saves]
    · rw [primarySends_append, primarySends_iteDebug _ _ _ (by decide)]
      simp [primarySends]
  · intro t0 hdraft ht0 hlt
    exact monitor_stillWaiting cfg time_str last cur t0 hon hoff hdraft ht0 (by omega)

/-- Witness for C5 at the spec's scenarios 2 and 3: beginning the draft at
1100 from `{online: true, changedAt: 1000}`, and a still-waiting offline
observation at 1400 (< 1100 + 600) from the draft state. -/
theorem C5_witness :
    (saves (monitor_power_status ⟨["123456789"], some "987654321", true, true⟩
        "12:00" (some ⟨false, 1100, Json.null⟩)
        (some ⟨true, 1000, some 1000, none, Json.null⟩)) =
      [⟨true, 1100, some 1000, some 1100, Json.null⟩] ∧
     primarySends (monitor_power_status ⟨["123456789"], some "987654321", true, true⟩
        "12:00" (some ⟨false, 1100, Json.null⟩)
        (some ⟨true, 1000, some 1000, none, Json.null⟩)) = []) ∧
    monitor_power_status ⟨["123456789"], some "987654321", true, true⟩
        "12:05" (some ⟨false, 1400, Json.null⟩)
        (some ⟨true, 1100, some 1000, some 1100, Json.null⟩) = [] :=
  ⟨(C5_debounce ⟨["123456789"], some "987654321", true, true⟩ "12:00"
      ⟨true, 1000, some 1000, none, Json.null⟩ ⟨false, 1100, Json.null⟩
      rfl rfl).1 rfl,
   (C5_debounce ⟨["123456789"], some "987654321", true, true⟩ "12:05"
      ⟨true, 1100, some 1000, some 1100, Json.null⟩ ⟨false, 1400, Json.null⟩
      rfl rfl).2 1100 rfl (by decide) (by decide)⟩

/-- C6: from Online with changedAt = its pre-draft value, an offline
observation at t0 begins the draft, and an online observation before
t0 + D applied to the written draft state cancels it: the only effect is a
single write back to Online with changedAt equal to its value from before
the draft began and no draft field — in particular no primary notification
(the cycle contains no send at all). -/
theorem C6_draft_cancelled (cfg : MonitorCfg) (tstr1 tstr2 : String)
    (s0 : PState) (o1 o2 : Observation)
    (h0on : s0.online = true) (h0d : truthy s0.draft_off_time = false)
    (ho1 : o1.online = false) (ho2 : o2.online = true)
    (hlt : o2.timestamp < o1.timestamp + POWER_OFF_CONFIRMATION_DELAY) :
    ∃ s1 : PState,
      saves (monitor_power_status cfg tstr1 (some o1) (some s0)) = [s1] ∧
      s1.online = true ∧ s1.draft_off_time = some o1.timestamp ∧
      s1.status_changed_at = s0.status_changed_at ∧
      monitor_power_status cfg tstr2 (some o2) (some s1) =
        [Event.save ⟨true, o2.timestamp, s0.status_changed_at, none, o2.raw_data⟩] := by
  refine ⟨⟨true, o1.timestamp, s0.status_changed_at, some o1.timestamp, o1.raw_data⟩,
          ?_, rfl, rfl, rfl, ?_⟩
  · rw [monitor_draftBegin cfg tstr1 s0 o1 h0on ho1 h0d,
        saves_append, saves_iteSingleSend]
    simp [saves]
  · rw [monitor_bothOnline cfg tstr2 _ o2 rfl ho2]
    simp [ho2]

/-- Witness for C6 at the spec's scenario 6: draft begun at 1100 from
`{online: true, changedAt: 1000}`, online again at 1150 (< 1700) → back to
Online with changedAt 1000, no message. -/
theorem C6_witness :
    ∃ s1 : PState,
      saves (monitor_power_status ⟨["123456789"], some "987654321", true, true⟩
          "12:00" (some ⟨false, 1100, Json.null⟩)
          (some ⟨true, 1000, some 1000, none, Json.null⟩)) = [s1] ∧
      s1.online = true ∧ s1.draft_off_time = some 1100 ∧
      s1.status_changed_at = some 1000 ∧
      monitor_power_status ⟨["123456789"], some "987654321", true, true⟩
          "12:02" (some ⟨true, 1150, Json.null⟩) (some s1) =
        [Event.save ⟨true, 1150, some 1000, none, Json.null⟩] :=
  C6_draft_cancelled ⟨["123456789"], some "987654321", true, true⟩ "12:00" "12:02"
    ⟨true, 1000, some 1000, none, Json.null⟩ ⟨false, 1100, Json.null⟩
    ⟨true, 1150, Json.null⟩ rfl rfl rfl rfl (by decide)

/-! ### C3: write discipline per cycle -/

/-- The "draft active, confirmation delay not yet elapsed" condition: the
only successful-probe case in which the source performs no write. -/
def stillWaiting (last : Option PState) (obs : Observation) : Bool :=
  match last with
  | none => false
  | some ls =>
      ls.online && !obs.online && truthy ls.draft_off_time &&
        decide (obs.timestamp - ls.draft_off_time.getD obs.timestamp <
                POWER_OFF_CONFIRMATION_DELAY)

/-- C3 counterexample: the claim "every successful cycle (including the
DraftOffline still-waiting case) performs a full overwrite of the state
file" is false — at the spec's own scenario 3 (draft since 1100, offline
observed at 1400, 300 s elapsed < D) the cycle writes zero times. -/
theorem C3_counterexample :
    ¬ (∀ (cfg : MonitorCfg) (time_str : String) (obs : Observation) (ls : PState),
        (saves (monitor_power_status cfg time_str (some obs) (some ls))).length = 1) := by
  intro h
  have h3 := h ⟨["123456789"], some "987654321", true, true⟩ "12:05"
      ⟨false, 1400, Json.null⟩ ⟨true, 1100, some 1000, some 1100, Json.null⟩
  rw [show monitor_power_status ⟨["123456789"], some "987654321", true, true⟩ "12:05"
        (some ⟨false, 1400, Json.null⟩)
        (some ⟨true, 1100, some 1000, some 1100, Json.null⟩) = [] from rfl] at h3
  exact absurd h3 (by decide)

/-- C3 (amended): a failed probe produces no effect at all — zero writes,
the persisted state is left bit-for-bit identical — and a successful cycle
performs exactly one full overwrite of the state file in every case EXCEPT
the DraftOffline still-waiting case, which performs zero writes (the source
only logs there and leaves the file untouched). -/
theorem C3_write_discipline (cfg : MonitorCfg) (time_str : String)
    (last : Option PState) (obs : Observation) :
    monitor_power_status cfg time_str none last = [] ∧
    (saves (monitor_power_status cfg time_str (some obs) last)).length =
      (if stillWaiting last obs then 0 else 1) := by
  refine ⟨rfl, ?_⟩
  match last with
  | none => simp [stillWaiting, monitor_power_status, saves]
  | some ls =>
    cases hon : ls.online <;> cases hcur : obs.online
    · rw [monitor_bothOffline cfg time_str ls obs hon (by simp [hcur])]
      simp [stillWaiting, hon, saves]
    · rw [monitor_restored cfg time_str ls obs hon hcur,
          saves_append, saves_append, saves_mapSend, saves_iteSingleSend]
      simp [stillWaiting, hon, saves]
    · cases hd : truthy ls.draft_off_time
      · rw [monitor_draftBegin cfg time_str ls obs hon (by simp [hcur]) hd,
            saves_append, saves_iteSingleSend]
        simp [stillWaiting, hon, hcur, hd, saves]
      · rcases hdo : ls.draft_off_time with _ | t0
        · rw [hdo] at hd
          simp [truthy] at hd
        · have ht0 : t0 ≠ 0 := by
            rw [hdo] at hd
            simpa [truthy] using hd
          by_cases hlt : obs.timestamp - t0 < POWER_OFF_CONFIRMATION_DELAY
          · rw [monitor_stillWaiting cfg time_str ls obs t0 hon (by simp [hcur]) hdo ht0 hlt]
            simp [stillWaiting, hon, hcur, hdo, truthy, ht0, hlt, saves]
          · rw [monitor_confirm cfg time_str ls obs t0 hon (by simp [hcur]) hdo ht0 (by omega),
                saves_append, saves_append, saves_mapSend, saves_iteSingleSend]
            simp [stillWaiting, hon, hcur, hdo, truthy, ht0, hlt, saves]
    · rw [monitor_bothOnline cfg time_str ls obs hon hcur]
      simp [stillWaiting, hon, hcur, saves]

/-! ### C7: the draft-implies-online invariant of every write -/

/-- Every state the engine ever passes to `save_status` that carries a
`draft_off_time` field has `online = true` (shared helper for the claims
about this invariant). -/
theorem saved_draft_implies_online (cfg : MonitorCfg) (time_str : String)
    (cur : Option Observation) (last : Option PState) :
    ∀ st ∈ saves (monitor_power_status cfg time_str cur last),
      st.draft_off_time ≠ none → st.online = true := by
  intro st hst hd
  match cur, last with
  | none, _ => simp [monitor_power_status, saves] at hst
  | some c, none =>
      simp [monitor_power_status, saves] at hst
      subst hst
      exact absurd rfl hd
  | some c, some ls =>
      cases hon : ls.online <;> cases hcur : c.online
      · rw [monitor_bothOffline cfg time_str ls c hon (by simp [hcur])] at hst
        simp [saves] at hst
        subst hst
        exact absurd rfl hd
      · rw [monitor_restored cfg time_str ls c hon hcur,
            saves_append, saves_append, saves_mapSend, saves_iteSingleSend] at hst
        simp [saves] at hst
        subst hst
        exact absurd rfl hd
      · cases hdraft : truthy ls.draft_off_time
        · rw [monitor_draftBegin cfg time_str ls c hon (by simp [hcur]) hdraft,
              saves_append, saves_iteSingleSend] at hst
          simp [saves] at hst
          subst hst
          rfl
        · rcases hdo : ls.draft_off_time with _ | t0
          · rw [hdo] at hdraft
            simp [truthy] at hdraft
          · have ht0 : t0 ≠ 0 := by
              rw [hdo] at hdraft
              simpa [truthy] using hdraft
            by_cases hlt : c.timestamp - t0 < POWER_OFF_CONFIRMATION_DELAY
            · rw [monitor_stillWaiting cfg time_str ls c t0 hon (by simp [hcur]) hdo ht0 hlt]
                at hst
              simp [saves] at hst
            · rw [monitor_confirm cfg time_str ls c t0 hon (by simp [hcur]) hdo ht0 (by omega),
                  saves_append, saves_append, saves_mapSend, saves_iteSingleSend] at hst
              simp [saves] at hst
              subst hst
              exact absurd rfl hd
      · rw [monitor_bothOnline cfg time_str ls c hon hcur] at hst
        simp [saves] at hst
        subst hst
        exact hcur

/-- C7: invariant preserved by every write of the persisted state — whenever
the written state carries a `draft_off_time` field, its `online` flag is
true; no state with online = false and a draft set is ever written (the only
write that sets a draft hard-codes `online: True`, and every other write
omits the draft field). -/
theorem C7_draft_written_only_online (cfg : MonitorCfg) (time_str : String)
    (cur : Option Observation) (last : Option PState) :
    ∀ st ∈ saves (monitor_power_status cfg time_str cur last),
      st.draft_off_time ≠ none → st.online = true :=
  saved_draft_implies_online cfg time_str cur last

/-- Witness for C7: the draft-begin write of scenario 2 — the saved state
`{online: true, changedAt: 1000, draftSince: 1100}` carries a draft and
indeed has online = true. -/
theorem C7_witness :
    (⟨true, 1100, some 1000, some 1100, Json.null⟩ : PState).online = true :=
  C7_draft_written_only_online ⟨["123456789"], some "987654321", true, true⟩ "12:00"
    (some ⟨false, 1100, Json.null⟩) (some ⟨true, 1000, some 1000, none, Json.null⟩)
    ⟨true, 1100, some 1000, some 1100, Json.null⟩ (List.Mem.head _) (by simp)

/-! ### C10: the draft-cancelled debug dispatch is unreachable -/

/-- C10: every state the engine writes with a (truthy) draft field also has
online = true; consequently, from any persisted state satisfying that
invariant — in particular any state the engine itself wrote — the
offline-to-online branch can never see a prior state that is both offline
and carries a draft, so the `DRAFT СКАСОВАНО` debug dispatch is never
emitted. -/
theorem C10_cancel_debug_unreachable :
    (∀ (cfg : MonitorCfg) (time_str : String) (cur : Option Observation)
       (last : Option PState) (st : PState),
        st ∈ saves (monitor_power_status cfg time_str cur last) →
        truthy st.draft_off_time = true → st.online = true) ∧
    (∀ (cfg : MonitorCfg) (time_str : String) (cur : Option Observation) (ls : PState),
        (truthy ls.draft_off_time = true → ls.online = true) →
        ∀ sc : SendCall,
          Event.send SendKind.draftCancel sc ∉
            monitor_power_status cfg time_str cur (some ls)) := by
  constructor
  · intro cfg time_str cur last st hst ht
    refine saved_draft_implies_online cfg time_str cur last st hst ?_
    intro hnone
    rw [hnone] at ht
    simp [truthy] at ht
  · intro cfg time_str cur ls hinv sc hmem
    match cur with
    | none => simp [monitor_power_status] at hmem
    | some c =>
      cases hon : ls.online <;> cases hcur : c.online
      · rw [monitor_bothOffline cfg time_str ls c hon (by simp [hcur])] at hmem
        simp at hmem
      · have htf : truthy ls.draft_off_time = false := by
          cases h : truthy ls.draft_off_time
          · rfl
          · rw [hinv h] at hon
            exact absurd hon (by simp)
        rw [monitor_restored cfg time_str ls c hon hcur] at hmem
        simp [htf] at hmem
      · cases hdraft : truthy ls.draft_off_time
        · rw [monitor_draftBegin cfg time_str ls c hon (by simp [hcur]) hdraft] at hmem
          split at hmem <;> simp at hmem
        · rcases hdo : ls.draft_off_time with _ | t0
          · rw [hdo] at hdraft
            simp [truthy] at hdraft
          · have ht0 : t0 ≠ 0 := by
              rw [hdo] at hdraft
              simpa [truthy] using hdraft
            by_cases hlt : c.timestamp - t0 < POWER_OFF_CONFIRMATION_DELAY
            · rw [monitor_stillWaiting cfg time_str ls c t0 hon (by simp [hcur]) hdo ht0 hlt]
                at hmem
              simp at hmem
            · rw [monitor_confirm cfg time_str ls c t0 hon (by simp [hcur]) hdo ht0 (by omega)]
                at hmem
              split at hmem <;> simp at hmem
      · rw [monitor_bothOnline cfg time_str ls c hon hcur] at hmem
        simp at hmem

/-- Witness for C10: the scenario-2 draft write satisfies the invariant, and
from the engine-written ConfirmedOffline state `{online:false, changedAt:
1700}` (no draft) the restored cycle at 2000 contains no draft-cancelled
debug dispatch. -/
theorem C10_witness :
    (⟨true, 1100, some 1000, some 1100, Json.null⟩ : PState).online = true ∧
    Event.send SendKind.draftCancel
        ⟨draftCancelMessage (format_duration 300), "987654321", true, true⟩ ∉
      monitor_power_status ⟨["123456789"], some "987654321", true, true⟩ "12:15"
        (some ⟨true, 2000, Json.null⟩) (some ⟨false, 1700, some 1700, none, Json.null⟩) :=
  ⟨C10_cancel_debug_unreachable.1 ⟨["123456789"], some "987654321", true, true⟩ "12:00"
      (some ⟨false, 1100, Json.null⟩) (some ⟨true, 1000, some 1000, none, Json.null⟩)
      ⟨true, 1100, some 1000, some 1100, Json.null⟩ (List.Mem.head _) rfl,
   C10_cancel_debug_unreachable.2 ⟨["123456789"], some "987654321", true, true⟩ "12:15"
      (some ⟨true, 2000, Json.null⟩) ⟨false, 1700, some 1700, none, Json.null⟩
      (fun h => Bool.noConfusion h)
      ⟨draftCancelMessage (format_duration 300), "987654321", true, true⟩⟩

/-! ### C8: dispatch/persist ordering -/

/-- Is this event a primary (outage/restored) `send_message` call? -/
def isPrimarySend : Event → Bool
  | Event.send SendKind.primary _ => true
  | _ => false

theorem noSendAfterSave_sendsThenSave (pre : List Event) (st : PState)
    (hpre : ∀ e ∈ pre, isSend e = true) :
    noSendAfterSave (pre ++ [Event.save st]) = true := by
  induction pre with
  | nil => rfl
  | cons e rest ih =>
      cases e with
      | send k c =>
          simp only [List.cons_append, noSendAfterSave]
          exact ih (fun x hx => hpre x (List.mem_cons_of_mem _ hx))
      | save s =>
          have h := hpre (Event.save s) (List.mem_cons_self _ _)
          simp [isSend] at h

theorem send_message_ok (dflt : Option String) (restricted transport_ok : Bool)
    (text : String) (chat : String) (hchat : chat ≠ "") (silent : Bool) :
    ∃ b : Bool,
      send_message dflt restricted transport_ok text (some chat) silent true =
        Except.ok b := by
  have hie : chat.isEmpty = false := by
    rw [Bool.eq_false_iff]
    intro hT
    exact hchat ((String.isEmpty_iff chat).mp hT)
  have hne : optStrTruthy (some chat) = true := by
    simp [optStrTruthy, hie]
  cases transport_ok
  · exact ⟨false, by simp [send_message, hne]⟩
  · exact ⟨true, by simp [send_message, hne]⟩

/-- Every `send_message` call the engine makes uses `force_send = true` and is
addressed either to a configured primary recipient or to the (truthy)
debug chat. -/
theorem monitor_send_calls (cfg : MonitorCfg) (time_str : String)
    (cur : Option Observation) (last : Option PState) (k : SendKind) (sc : SendCall) :
    Event.send k sc ∈ monitor_power_status cfg time_str cur last →
    sc.force_send = true ∧
      (sc.chat_id ∈ cfg.power_chat_ids ∨
        (optStrTruthy cfg.debug_chat_id = true ∧
         sc.chat_id = cfg.debug_chat_id.getD "")) := by
  intro hmem
  match cur with
  | none => simp [monitor_power_status] at hmem
  | some c =>
    match last with
    | none => simp [monitor_power_status] at hmem
    | some ls =>
      cases hon : ls.online <;> cases hcur : c.online
      · rw [monitor_bothOffline cfg time_str ls c hon (by simp [hcur])] at hmem
        simp at hmem
      · rw [monitor_restored cfg time_str ls c hon hcur] at hmem
        rcases List.mem_append.mp hmem with h | h
        · rcases List.mem_append.mp h with h2 | h2
          · rcases List.mem_map.mp h2 with ⟨chat, hchat, heq⟩
            injection heq with hk hsc
            subst hsc
            exact ⟨rfl, Or.inl hchat⟩
          · split at h2
            next hcond =>
              rw [List.mem_singleton] at h2
              injection h2.symm with hk hsc
              subst hsc
              simp only [Bool.and_eq_true] at hcond
              exact ⟨rfl, Or.inr ⟨hcond.2, rfl⟩⟩
            next => simp at h2
        · rw [List.mem_singleton] at h
          exact absurd h (by simp)
      · cases hdraft : truthy ls.draft_off_time
        · rw [monitor_draftBegin cfg time_str ls c hon (by simp [hcur]) hdraft] at hmem
          rcases List.mem_append.mp hmem with h | h
          · simp at h
          · split at h
            next hcond =>
              rw [List.mem_singleton] at h
              injection h with hk hsc
              subst hsc
              simp only [Bool.and_eq_true] at hcond
              exact ⟨rfl, Or.inr ⟨hcond.2, rfl⟩⟩
            next => simp at h
        · rcases hdo : ls.draft_off_time with _ | t0
          · rw [hdo] at hdraft
            simp [truthy] at hdraft
          · have ht0 : t0 ≠ 0 := by
              rw [hdo] at hdraft
              simpa [truthy] using hdraft
            by_cases hlt : c.timestamp - t0 < POWER_OFF_CONFIRMATION_DELAY
            · rw [monitor_stillWaiting cfg time_str ls c t0 hon (by simp [hcur]) hdo ht0 hlt]
                at hmem
              simp at hmem
            · rw [monitor_confirm cfg time_str ls c t0 hon (by simp [hcur]) hdo ht0 (by omega)]
                at hmem
              rcases List.mem_append.mp hmem with h | h
              · rcases List.mem_append.mp h with h2 | h2
                · rcases List.mem_map.mp h2 with ⟨chat, hchat, heq⟩
                  injection heq with hk hsc
                  subst hsc
                  exact ⟨rfl, Or.inl hchat⟩
                · split at h2
                  next hcond =>
                    rw [List.mem_singleton] at h2
                    injection h2.symm with hk hsc
                    subst hsc
                    simp only [Bool.and_eq_true] at hcond
                    exact ⟨rfl, Or.inr ⟨hcond.2, rfl⟩⟩
                  next => simp at h2
              · rw [List.mem_singleton] at h
                exact absurd h (by simp)
      · rw [monitor_bothOnline cfg time_str ls c hon hcur] at hmem
        simp at hmem

/-- C8 counterexample: the claim "in every cycle that produces a
notification intent, all dispatch attempts happen before the state persist"
is false — in the draft-begin cycle (debug tracking on, debug chat set) the
source calls `save_status` FIRST and sends the debug draft-begin
notification AFTER the save. -/
theorem C8_counterexample :
    ¬ (∀ (cfg : MonitorCfg) (time_str : String) (cur : Option Observation)
         (last : Option PState),
        (monitor_power_status cfg time_str cur last).any isSend = true →
        noSendAfterSave (monitor_power_status cfg time_str cur last) = true) := by
  intro h
  have hb := h ⟨["123456789"], some "987654321", true, true⟩ "12:00"
      (some ⟨false, 1100, Json.null⟩) (some ⟨true, 1000, some 1000, none, Json.null⟩)
      (by rfl)
  exact absurd hb (by decide)

/-- C8 (amended): in every cycle that emits a PRIMARY (outage/restored)
notification, all dispatch attempts happen before the state persist (only
the draft-begin cycle dispatches — its debug intent — after its persist);
and the persist never depends on dispatch outcomes: every `send_message`
call the engine makes uses `force_send = true` and a non-empty chat id, so
under any wall clock and any transport outcome it returns `Except.ok`
(rejected deliveries come back as `ok false`, transport errors are caught)
— it never raises, and the source ignores the returned Bool. -/
theorem C8_dispatch_ordering (cfg : MonitorCfg) (time_str : String)
    (cur : Option Observation) (last : Option PState)
    (dflt : Option String) (restricted transport_ok : Bool)
    (hchats : ∀ ch ∈ cfg.power_chat_ids, ch ≠ "") :
    ((monitor_power_status cfg time_str cur last).any isPrimarySend = true →
      noSendAfterSave (monitor_power_status cfg time_str cur last) = true) ∧
    (∀ (k : SendKind) (sc : SendCall),
        Event.send k sc ∈ monitor_power_status cfg time_str cur last →
        sc.force_send = true ∧
        ∃ b : Bool,
          send_message dflt restricted transport_ok sc.text (some sc.chat_id)
            sc.silent_mode sc.force_send = Except.ok b) := by
  constructor
  · match cur with
    | none => intro _; rfl
    | some c =>
      match last with
      | none => intro _; rfl
      | some ls =>
        cases hon : ls.online <;> cases hcur : c.online
        · intro _
          rw [monitor_bothOffline cfg time_str ls c hon (by simp [hcur])]
          rfl
        · intro _
          rw [monitor_restored cfg time_str ls c hon hcur]
          refine noSendAfterSave_sendsThenSave _ _ ?_
          intro e he
          rcases List.mem_append.mp he with h | h
          · rcases List.mem_map.mp h with ⟨chat, _, heq⟩
            rw [← heq]
            rfl
          · split at h
            · rw [List.mem_singleton] at h
              rw [h]
              rfl
            · simp at h
        · cases hdraft : truthy ls.draft_off_time
          · intro hany
            rw [monitor_draftBegin cfg time_str ls c hon (by simp [hcur]) hdraft] at hany
            exfalso
            rcases List.any_eq_true.mp hany with ⟨e, he, hpe⟩
            rcases List.mem_append.mp he with h | h
            · rw [List.mem_singleton] at h
              subst h
              simp [isPrimarySend] at hpe
            · split at h
              · rw [List.mem_singleton] at h
                subst h
                simp [isPrimarySend] at hpe
              · simp at h
          · rcases hdo : ls.draft_off_time with _ | t0
            · rw [hdo] at hdraft
              simp [truthy] at hdraft
            · have ht0 : t0 ≠ 0 := by
                rw [hdo] at hdraft
                simpa [truthy] using hdraft
              by_cases hlt : c.timestamp - t0 < POWER_OFF_CONFIRMATION_DELAY
              · intro _
                rw [monitor_stillWaiting cfg time_str ls c t0 hon (by simp [hcur]) hdo ht0 hlt]
                rfl
              · intro _
                rw [monitor_confirm cfg time_str ls c t0 hon (by simp [hcur]) hdo ht0 (by omega)]
                refine noSendAfterSave_sendsThenSave _ _ ?_
                intro e he
                rcases List.mem_append.mp he with h | h
                · rcases List.mem_map.mp h with ⟨chat, _, heq⟩
                  rw [← heq]
                  rfl
                · split at h
                  · rw [List.mem_singleton] at h
                    rw [h]
                    rfl
                  · simp at h
        · intro _
          rw [monitor_bothOnline cfg time_str ls c hon hcur]
          rfl
  · intro k sc hmem
    obtain ⟨hforce, hchat⟩ := monitor_send_calls cfg time_str cur last k sc hmem
    refine ⟨hforce, ?_⟩
    rw [hforce]
    rcases hchat with h | ⟨hdbg, heq⟩
    · exact send_message_ok dflt restricted transport_ok sc.text sc.chat_id (hchats _ h)
        sc.silent_mode
    · rcases hd : cfg.debug_chat_id with _ | d
      · rw [hd] at hdbg
        simp [optStrTruthy] at hdbg
      · rw [hd] at hdbg heq
        rw [Option.getD_some] at heq
        have hdne : d ≠ "" := by
          intro h0
          subst h0
          exact absurd hdbg (by decide)
        rw [heq]
        exact send_message_ok dflt restricted transport_ok sc.text d hdne sc.silent_mode

/-- Witness for C8 at the restored cycle of scenario 5: the cycle's events
satisfy the dispatch-before-persist order, and the primary send call (force
send, non-empty chat) is accepted by `send_message`. -/
theorem C8_witness :
    noSendAfterSave (monitor_power_status ⟨["123456789"], some "987654321", true, true⟩
        "12:15" (some ⟨true, 2000, Json.null⟩)
        (some ⟨false, 1700, some 1700, none, Json.null⟩)) = true ∧
    ((⟨restoredMessage "12:15" (format_duration 300), "123456789", false, true⟩ :
        SendCall).force_send = true ∧
      ∃ b : Bool,
        send_message (some "42") false true
            (restoredMessage "12:15" (format_duration 300)) (some "123456789")
            false true =
          Except.ok b) :=
  ⟨(C8_dispatch_ordering ⟨["123456789"], some "987654321", true, true⟩ "12:15"
      (some ⟨true, 2000, Json.null⟩) (some ⟨false, 1700, some 1700, none, Json.null⟩)
      (some "42") false true
      (by intro ch hch; rw [List.mem_singleton] at hch; subst hch; decide)).1 rfl,
   (C8_dispatch_ordering ⟨["123456789"], some "987654321", true, true⟩ "12:15"
      (some ⟨true, 2000, Json.null⟩) (some ⟨false, 1700, some 1700, none, Json.null⟩)
      (some "42") false true
      (by intro ch hch; rw [List.mem_singleton] at hch; subst hch; decide)).2
     SendKind.primary
     ⟨restoredMessage "12:15" (format_duration 300), "123456789", false, true⟩
     (List.Mem.head _)⟩
